import Mathlib

/-!
Verification of the pest-management simulation engine
(`model.py`, `agents.py`) against its specification.

The source is shallowly embedded: weather records carry exact rational
temperature/humidity, grids are functions from coordinates to the list of
entities occupying the cell (mirroring the `MultiGrid` cell contents), and
every stochastic rule takes its random draws as explicit arguments, so a
draw `r` from `random.random()` is an arbitrary rational in `[0, 1)` and a
`random.choice` is an arbitrary index into the candidate list.
-/

namespace IPM

/-- A daily weather record, as stored in `weather_history`:
`{'temp': .., 'humidity': .., 'rain': ..}`. -/
structure Weather where
  temp : ℚ
  humidity : ℚ
  rain : Bool
deriving DecidableEq, Repr

/-- An entity occupying a grid cell: `TomatoAgent` and `MarigoldAgent`
carry their `health` field, `ThripAgent` carries `age`. -/
inductive Entity where
  | tomato (health : ℤ)
  | marigold (health : ℤ)
  | thrip (age : ℕ)
deriving DecidableEq, Repr

/-- The kind of a crop entity, forgetting its mutable health. -/
inductive CropKind where
  | tomatoK
  | marigoldK
deriving DecidableEq, Repr

/-- A `MultiGrid`: each coordinate holds the list of entities placed there. -/
def Grid : Type := ℕ × ℕ → List Entity

/-- Rewrite the contents of one cell, leaving every other cell alone. -/
def updateCell (g : Grid) (p : ℕ × ℕ) (f : List Entity → List Entity) : Grid :=
  fun q => if q = p then f (g q) else g q

/-- `place_agent`: append one entity to a cell's contents. -/
def placeEntity (g : Grid) (p : ℕ × ℕ) (e : Entity) : Grid :=
  updateCell g p (fun l => l ++ [e])

/-- `remove`: delete the entity at index `i` of cell `p`'s contents. -/
def removeEntityAt (g : Grid) (p : ℕ × ℕ) (i : ℕ) : Grid :=
  updateCell g p (fun l => l.eraseIdx i)

/-- All in-range coordinates of a `w × h` grid, as iterated by
`self.grid.coord_iter()` / the nested `for x .. for y ..` loops. -/
def gridCells (w h : ℕ) : List (ℕ × ℕ) :=
  (List.range w).flatMap (fun x => (List.range h).map (fun y => (x, y)))

/- ----------------------------------------------------------------
Outbreak state machine (`TomatoModel.step`, lines 154-163).
---------------------------------------------------------------- -/

/-- The "optimal day" predicate of `step`:
`25 <= temp <= 32 and rh < 65`. -/
def optimalDay (w : Weather) : Bool :=
  decide (25 ≤ w.temp ∧ w.temp ≤ 32 ∧ w.humidity < 65)

/-- One tick of the outbreak state machine: update
`optimal_weather_streak` from the current weather, then recompute
`is_outbreak_mode = (optimal_weather_streak >= 2)` in the same tick.
Returns the new `(streak, flag)` pair. -/
def outbreakUpdate (streak : ℕ) (w : Weather) : ℕ × Bool :=
  let s := if optimalDay w then streak + 1 else 0
  (s, decide (2 ≤ s))

/-- The streak after a whole run of weather ticks, starting from the
initial `optimal_weather_streak = 0`. -/
def runStreak (ws : List Weather) : ℕ :=
  ws.foldl (fun s w => (outbreakUpdate s w).1) 0

/-- The outbreak flag after a whole run of weather ticks. -/
def runFlag (ws : List Weather) : Bool :=
  decide (2 ≤ runStreak ws)

/- ----------------------------------------------------------------
Pest lifecycle (`ThripAgent.biological_lifecycle`) and feeding
(`ThripAgent.feed`).
---------------------------------------------------------------- -/

/-- `death_prob`: `0.05`, raised to `0.45` when `rh > 60 or rain`. -/
def death_prob (w : Weather) : ℚ :=
  if 60 < w.humidity ∨ w.rain = true then 45 / 100 else 5 / 100

/-- `repro_prob`: starts at `0.02`, reassigned to `0.15` when
`25 <= temp <= 30 and rh < 60`, and gains `+0.20` while
`self.model.is_outbreak_mode` holds. -/
def repro_prob (w : Weather) (outbreak : Bool) : ℚ :=
  let p0 : ℚ := 2 / 100
  let p1 : ℚ := if 25 ≤ w.temp ∧ w.temp ≤ 30 ∧ w.humidity < 60 then 15 / 100 else p0
  if outbreak then p1 + 20 / 100 else p1

/-- `biological_lifecycle` for the pest stored at index `i` of cell `p`.
`d1` is the mortality draw, `d2` the reproduction draw (each a
`random.random()` value). If the mortality draw fires the pest is removed
and the function returns at once; otherwise a firing reproduction draw
places one new `ThripAgent` (age 0) at the parent's cell. -/
def biological_lifecycle (w : Weather) (outbreak : Bool) (d1 d2 : ℚ)
    (g : Grid) (p : ℕ × ℕ) (i : ℕ) : Grid :=
  if d1 < death_prob w then removeEntityAt g p i
  else if d2 < repro_prob w outbreak then placeEntity g p (Entity.thrip 0)
  else g

/-- One feeding event: every `TomatoAgent` in the cell loses 25 health
(`health -= 25`, then clamped up to 0); everything else is untouched. -/
def feedEntity (e : Entity) : Entity :=
  match e with
  | Entity.tomato h => Entity.tomato (if h - 25 < 0 then 0 else h - 25)
  | e => e

/-- `ThripAgent.feed`: apply the damage rule to every entity of the
pest's cell. -/
def feed (g : Grid) (p : ℕ × ℕ) : Grid :=
  updateCell g p (fun l => l.map feedEntity)

/- ----------------------------------------------------------------
Yield-loss accounting (`TomatoModel.calculate_yield_loss`).
---------------------------------------------------------------- -/

/-- `isinstance(agent, TomatoAgent)`. -/
def isTomatoE : Entity → Bool
  | Entity.tomato _ => true
  | _ => false

/-- The health contribution of an entity to `current_health`. -/
def tomatoHealthOf : Entity → ℤ
  | Entity.tomato h => h
  | _ => 0

/-- All entities of the grid in the order `coord_iter` yields them. -/
def allEntities (g : Grid) (w h : ℕ) : List Entity :=
  (gridCells w h).flatMap (fun p => g p)

/-- `calculate_yield_loss`: scan the whole grid, accumulating
`total_potential` (+100 per Tomato) and `current_health` (+health per
Tomato), then `(loss / total_potential) * 100`, or 0 with no Tomato. -/
def calculate_yield_loss (g : Grid) (w h : ℕ) : ℚ :=
  let acc := (allEntities g w h).foldl
    (fun acc e =>
      match e with
      | Entity.tomato hp => (acc.1 + 100, acc.2 + hp)
      | _ => acc)
    ((0 : ℤ), (0 : ℤ))
  if 0 < acc.1 then (((acc.1 : ℚ) - (acc.2 : ℚ)) / (acc.1 : ℚ)) * 100 else 0

/- ----------------------------------------------------------------
Layout generation (`TomatoModel.generate_layout`).
---------------------------------------------------------------- -/

/-- A runtime error of the embedded code. -/
inductive PyErr where
  | zeroDivision
deriving DecidableEq, Repr

/-- `freq = int(1/ratio) if ratio > 0 else 100`. Python `int` truncates
toward zero and the argument is positive, so this is the floor. -/
def intercropFreq (r : ℚ) : ℕ :=
  if 0 < r then (⌊1 / r⌋).toNat else 100

/-- The `is_trap` decision of `generate_layout` for one cell. -/
def layoutIsTrap (layout : String) (r : ℚ) (w h x y : ℕ) : Bool :=
  if layout = "intercropping" then y % intercropFreq r == 0
  else if layout = "perimeter" then
    decide (x < 2) || decide (w - 2 ≤ x) || decide (y < 2) || decide (h - 2 ≤ y)
  else false

/-- `generate_layout`: place exactly one crop entity (health 100) on
every cell. With the intercropping layout and a period of 0 (which
happens for a ratio above 1) the Python `y % freq` raises
`ZeroDivisionError` as soon as the loop body runs. -/
def generate_layout (layout : String) (r : ℚ) (w h : ℕ) : Except PyErr Grid :=
  if layout = "intercropping" ∧ intercropFreq r = 0 ∧ 0 < w ∧ 0 < h then
    Except.error PyErr.zeroDivision
  else
    Except.ok (fun p =>
      if p.1 < w ∧ p.2 < h then
        [if layoutIsTrap layout r w h p.1 p.2 then Entity.marigold 100 else Entity.tomato 100]
      else [])

/- ----------------------------------------------------------------
Weather timeline (`TomatoModel.extend_weather_data` and the weather
setup of `TomatoModel.__init__`).
---------------------------------------------------------------- -/

/-- `max lo (min hi x)`: the clamping used on generated weather. -/
def clamp (lo hi x : ℚ) : ℚ := max lo (min hi x)

/-- Python `round` on a rational: round half to even. -/
def pyRoundHalfEven (x : ℚ) : ℤ :=
  if x - (⌊x⌋ : ℚ) < 1 / 2 then ⌊x⌋
  else if 1 / 2 < x - (⌊x⌋ : ℚ) then ⌊x⌋ + 1
  else if ⌊x⌋ % 2 = 0 then ⌊x⌋ else ⌊x⌋ + 1

/-- Python `round(x, 1)`. -/
def pyRound1 (x : ℚ) : ℚ := (pyRoundHalfEven (10 * x) : ℚ) / 10

/-- The `extend_weather_data` loop: `n` more days from running values
`(t, hu)`, drawing `(temp delta, humidity delta, rain draw)` from the
stream `rnd` starting at index `k`. Each record stores the clamped
temperature rounded to one decimal and the clamped humidity truncated to
an integer; the running values stay unrounded. -/
def extendLoop : ℕ → ℚ → ℚ → (ℕ → ℚ × ℚ × ℚ) → ℕ → List Weather
  | 0, _, _, _, _ => []
  | Nat.succ n, t, hu, rnd, k =>
      let d := rnd k
      let t2 := clamp 15 38 (t + d.1)
      let h2 := clamp 20 95 (hu + d.2.1)
      Weather.mk (pyRound1 t2) ((⌊h2⌋ : ℚ)) (decide (d.2.2 < 1 / 10)) ::
        extendLoop n t2 h2 rnd (k + 1)

/-- `extend_weather_data(days_needed)`: keep the base history and append
random-walk records until `days_needed` records exist (the loop runs
`days_needed - len(history)` times). The walk starts from the last
record, or from `(28, 50)` on an empty history. -/
def extend_weather_data (hist : List Weather) (days_needed : ℕ)
    (rnd : ℕ → ℚ × ℚ × ℚ) : List Weather :=
  let t0 : ℚ := match hist.getLast? with | none => 28 | some w0 => w0.temp
  let h0 : ℚ := match hist.getLast? with | none => 50 | some w0 => w0.humidity
  hist ++ extendLoop (days_needed - hist.length) t0 h0 rnd 0

/-- The fallback record used when the provider returns nothing usable. -/
def baseHist (api : List Weather) : List Weather :=
  if api = [] then [Weather.mk 25 50 false] else api

/-- The weather timeline as built by `__init__`: a fixed 50-record
synthetic sequence (29 °C / 55 % / no rain) when the scen string is
"Force Outbreak"; otherwise the provider data (an external collaborator,
passed in as `api`), the one-record fallback when it is empty, extended
to 100 days. -/
def setupWeather (scen : String) (api : List Weather)
    (rnd : ℕ → ℚ × ℚ × ℚ) : List Weather :=
  if scen = "Force Outbreak" then List.replicate 50 (Weather.mk 29 55 false)
  else extend_weather_data (baseHist api) 100 rnd

/- ----------------------------------------------------------------
Pest seeding (`TomatoModel.initialize_pests`).
---------------------------------------------------------------- -/

/-- The spawn test of `initialize_pests` for one cell: the draw `q` is a
`random.random()` value (so `q ∈ [0, 1)`) and the code tests
`q < 0.08 * (dist / max_dist)`; squaring both sides of that comparison
(both are nonnegative) keeps it exact over the rationals. -/
def spawnTest (w h x y : ℕ) (q : ℚ) : Bool :=
  let cx : ℚ := ((w / 2 : ℕ) : ℚ)
  let cy : ℚ := ((h / 2 : ℕ) : ℚ)
  let distSq : ℚ := ((x : ℚ) - cx) ^ 2 + ((y : ℚ) - cy) ^ 2
  let maxDistSq : ℚ := cx ^ 2 + cy ^ 2
  decide (q ^ 2 * maxDistSq < (8 / 100) ^ 2 * distSq)

/-- `initialize_pests`: walk every cell and scatter age-0 pests with the
edge-biased spawn probability. -/
def init_pests (g : Grid) (w h : ℕ) (prnd : ℕ × ℕ → ℚ) : Grid :=
  (gridCells w h).foldl
    (fun gg p =>
      if spawnTest w h p.1 p.2 (prnd p) then placeEntity gg p (Entity.thrip 0) else gg)
    g

/- ----------------------------------------------------------------
Pest movement (`ThripAgent.move`).
---------------------------------------------------------------- -/

/-- The Moore deltas of radius 1 (the 8-connected neighbourhood). -/
def mooreDeltas : List (ℤ × ℤ) :=
  [(-1, -1), (-1, 0), (-1, 1), (0, -1), (0, 1), (1, -1), (1, 0), (1, 1)]

/-- `get_neighborhood(moore=True, include_center=False, radius=1)` on the
non-toroidal grid: the in-range Moore neighbours of `p`, current cell
excluded, clipped at the edges (no wraparound). -/
def neighborhoodCells (w h : ℕ) (p : ℕ × ℕ) : List (ℕ × ℕ) :=
  mooreDeltas.filterMap (fun d =>
    if 0 ≤ (p.1 : ℤ) + d.1 ∧ (p.1 : ℤ) + d.1 < (w : ℤ)
        ∧ 0 ≤ (p.2 : ℤ) + d.2 ∧ (p.2 : ℤ) + d.2 < (h : ℤ) then
      some (((p.1 : ℤ) + d.1).toNat, ((p.2 : ℤ) + d.2).toNat)
    else none)

/-- The positions of the Marigold occupants of the neighbourhood, as
`get_neighbors` plus the `isinstance(a, MarigoldAgent)` filter collects
them (one entry per Marigold agent). -/
def marigoldCells (g : Grid) (w h : ℕ) (p : ℕ × ℕ) : List (ℕ × ℕ) :=
  (neighborhoodCells w h p).flatMap (fun q =>
    (g q).filterMap (fun e =>
      match e with
      | Entity.marigold _ => some q
      | _ => none))

/-- `ThripAgent.move`: `r` is the attraction draw (`random.random()`)
and `c` indexes the `random.choice` uniformly over the candidate list.
With a Marigold in the neighbourhood and `r < 0.8` the pest moves to the
chosen Marigold cell; otherwise it moves to the chosen neighbourhood
cell. (`random.choice` on an empty candidate list would raise; the `p`
default of `getD` is unreachable whenever the candidates are nonempty.) -/
def move (g : Grid) (w h : ℕ) (p : ℕ × ℕ) (r : ℚ) (c : ℕ) : ℕ × ℕ :=
  if marigoldCells g w h p ≠ [] ∧ r < 8 / 10 then
    (marigoldCells g w h p).getD (c % (marigoldCells g w h p).length) p
  else
    (neighborhoodCells w h p).getD (c % (neighborhoodCells w h p).length) p

/-- The crop kind of an entity (`none` for pests). -/
def cropKindOf : Entity → Option CropKind
  | Entity.tomato _ => some CropKind.tomatoK
  | Entity.marigold _ => some CropKind.marigoldK
  | Entity.thrip _ => none

/-- The crop entities of a cell, by kind and in order. Feeding may
change crop health but never this list. -/
def cropKinds (l : List Entity) : List CropKind := l.filterMap cropKindOf

/- ----------------------------------------------------------------
Engine initialization (`TomatoModel.__init__` and
`capture_safe_state`).
---------------------------------------------------------------- -/

/-- The positions snapshot captured by `capture_safe_state`. -/
structure Snapshot where
  tomatoes : List (ℕ × ℕ)
  marigolds : List (ℕ × ℕ)
  pests : List (ℕ × ℕ)
deriving DecidableEq, Repr

/-- `capture_safe_state`: collect every entity position by kind. -/
def capture_safe_state (g : Grid) (w h : ℕ) : Snapshot :=
  Snapshot.mk
    ((gridCells w h).flatMap (fun p => (g p).filterMap (fun e =>
      match e with | Entity.tomato _ => some p | _ => none)))
    ((gridCells w h).flatMap (fun p => (g p).filterMap (fun e =>
      match e with | Entity.marigold _ => some p | _ => none)))
    ((gridCells w h).flatMap (fun p => (g p).filterMap (fun e =>
      match e with | Entity.thrip _ => some p | _ => none)))

/-- The constructor arguments of `TomatoModel`. In the source the trap
fraction argument is named with a `_ratio` suffix and the data-source
argument is named after the scenario. -/
structure Config where
  farm_size_acres : ℚ
  trap_frac : ℚ
  layout : String
  lat : ℚ
  lon : ℚ
  scen : String

/-- The engine state right after `__init__`. -/
structure ModelState where
  width : ℕ
  height : ℕ
  weather_history : List Weather
  current_step_tracker : ℕ
  is_outbreak_mode : Bool
  optimal_weather_streak : ℕ
  outbreak_cause : String
  yield_loss_pct : ℚ
  current_weather : Weather
  grid : Grid
  last_safe_state : Snapshot

/-- `TomatoModel.__init__`. The provider result `api` and the random
streams (`wrnd` for the weather walk, `prnd` for pest seeding) are
explicit inputs. The grid resolution is hard-wired to 40×40 and the
`farm_size_acres` argument is accepted but never read. A
`ZeroDivisionError` raised by `generate_layout` propagates, so the
whole initialization fails; the weather timeline, fetched earlier in
the constructor body, is discarded with it. `current_weather` is
`weather_history[0]`; the history is never empty on the paths taken, so
the `getD` default is unreachable. -/
def TomatoModel.init (cfg : Config) (api : List Weather)
    (wrnd : ℕ → ℚ × ℚ × ℚ) (prnd : ℕ × ℕ → ℚ) : Except PyErr ModelState :=
  match generate_layout cfg.layout cfg.trap_frac 40 40 with
  | Except.error e => Except.error e
  | Except.ok g0 =>
      Except.ok (ModelState.mk 40 40
        (setupWeather cfg.scen api wrnd)
        0 false 0 "N/A" 0
        ((setupWeather cfg.scen api wrnd).getD 0 (Weather.mk 0 0 false))
        (init_pests g0 40 40 prnd)
        (capture_safe_state (init_pests g0 40 40 prnd) 40 40))

/-- Replace only the accepted-but-unused farm size argument. -/
def setFarm (cfg : Config) (a : ℚ) : Config :=
  Config.mk a cfg.trap_frac cfg.layout cfg.lat cfg.lon cfg.scen

/-- A concrete configuration on which initialization succeeds. -/
def cfgW : Config := Config.mk 50 (1 / 5) "perimeter" 0 0 "Force Outbreak"

/-- A concrete weather random stream. -/
def rngW : ℕ → ℚ × ℚ × ℚ := fun _ => (0, 0, 0)

/-- A concrete seeding random stream (1 never spawns: `1 < p` fails for
every probability in play). -/
def prndW : ℕ × ℕ → ℚ := fun _ => 1

/-- The state produced by initializing with `cfgW`. -/
def stW : ModelState :=
  match TomatoModel.init cfgW [] rngW prndW with
  | Except.ok s => s
  | Except.error _ =>
      ModelState.mk 0 0 [] 0 false 0 "" 0 (Weather.mk 0 0 false) (fun _ => [])
        (Snapshot.mk [] [] [])

/-- The clamp bounds the spec requires of generated weather records. -/
def weatherInBounds (w : Weather) : Prop :=
  15 ≤ w.temp ∧ w.temp ≤ 38 ∧ 20 ≤ w.humidity ∧ w.humidity ≤ 95

instance (w : Weather) : Decidable (weatherInBounds w) := by
  unfold weatherInBounds
  infer_instance

/- ----------------------------------------------------------------
Helper lemmas.
---------------------------------------------------------------- -/

theorem le_clamp (lo hi x : ℚ) : lo ≤ clamp lo hi x :=
  le_max_left lo _

theorem clamp_le (lo hi x : ℚ) (h : lo ≤ hi) : clamp lo hi x ≤ hi :=
  max_le h (min_le_left hi x)

theorem le_pyRoundHalfEven (y : ℚ) (a : ℤ) (h : (a : ℚ) ≤ y) : a ≤ pyRoundHalfEven y := by
  have hf : a ≤ ⌊y⌋ := Int.le_floor.mpr h
  unfold pyRoundHalfEven
  split_ifs <;> omega

theorem pyRoundHalfEven_le (y : ℚ) (a : ℤ) (h : y ≤ (a : ℚ)) : pyRoundHalfEven y ≤ a := by
  have hf : ⌊y⌋ ≤ a := by
    have := Int.floor_le_floor h
    simpa using this
  unfold pyRoundHalfEven
  split_ifs with h1 h2 h3
  · exact hf
  · -- the fractional part exceeds 1/2, so the floor is strictly below `a`
    have hlt : (⌊y⌋ : ℚ) < a := by
      have hfl := Int.floor_le y
      nlinarith [Int.fract_lt_one y]
    have : ⌊y⌋ < a := by exact_mod_cast hlt
    omega
  · exact hf
  · have hlt : (⌊y⌋ : ℚ) < a := by
      have hfl := Int.floor_le y
      have hr : (1 : ℚ) / 2 = y - (⌊y⌋ : ℚ) := le_antisymm (le_of_not_lt h1) (le_of_not_lt h2)
      nlinarith
    have : ⌊y⌋ < a := by exact_mod_cast hlt
    omega

theorem pyRound1_bounds (x : ℚ) (h1 : 15 ≤ x) (h2 : x ≤ 38) :
    15 ≤ pyRound1 x ∧ pyRound1 x ≤ 38 := by
  have hl : (150 : ℤ) ≤ pyRoundHalfEven (10 * x) := by
    apply le_pyRoundHalfEven
    push_cast
    linarith
  have hr : pyRoundHalfEven (10 * x) ≤ (380 : ℤ) := by
    apply pyRoundHalfEven_le
    push_cast
    linarith
  have hlq : ((150 : ℚ)) ≤ (pyRoundHalfEven (10 * x) : ℚ) := by exact_mod_cast hl
  have hrq : ((pyRoundHalfEven (10 * x) : ℚ)) ≤ 380 := by exact_mod_cast hr
  constructor
  · unfold pyRound1
    rw [le_div_iff (by norm_num)]
    linarith
  · unfold pyRound1
    rw [div_le_iff (by norm_num)]
    linarith

theorem extendLoop_length (n : ℕ) (t hu : ℚ) (rnd : ℕ → ℚ × ℚ × ℚ) (k : ℕ) :
    (extendLoop n t hu rnd k).length = n := by
  induction n generalizing t hu k with
  | zero => rfl
  | succ n ih => simp [extendLoop, ih]

theorem extendLoop_inBounds (n : ℕ) (t hu : ℚ) (rnd : ℕ → ℚ × ℚ × ℚ) (k : ℕ) :
    ∀ w ∈ extendLoop n t hu rnd k, weatherInBounds w := by
  induction n generalizing t hu k with
  | zero => intro w hw; simp [extendLoop] at hw
  | succ n ih =>
    intro w hw
    simp only [extendLoop, List.mem_cons] at hw
    rcases hw with hw | hw
    · subst hw
      have ht1 : (15 : ℚ) ≤ clamp 15 38 (t + (rnd k).1) := le_clamp _ _ _
      have ht2 : clamp 15 38 (t + (rnd k).1) ≤ 38 := clamp_le _ _ _ (by norm_num)
      have hh1 : (20 : ℚ) ≤ clamp 20 95 (hu + (rnd k).2.1) := le_clamp _ _ _
      have hh2 : clamp 20 95 (hu + (rnd k).2.1) ≤ 95 := clamp_le _ _ _ (by norm_num)
      have hround := pyRound1_bounds _ ht1 ht2
      have hhum1 : (20 : ℚ) ≤ ((⌊clamp 20 95 (hu + (rnd k).2.1)⌋ : ℤ) : ℚ) := by
        have h20 : (20 : ℤ) ≤ ⌊clamp 20 95 (hu + (rnd k).2.1)⌋ :=
          Int.le_floor.mpr (by exact_mod_cast hh1)
        exact_mod_cast h20
      have hhum2 : (((⌊clamp 20 95 (hu + (rnd k).2.1)⌋ : ℤ) : ℚ)) ≤ 95 :=
        le_trans (Int.floor_le _) hh2
      exact ⟨hround.1, hround.2, hhum1, hhum2⟩
    · exact ih _ _ (k + 1) w hw

/-- A grid with no entities at all (used to instantiate theorems). -/
def emptyGrid : Grid := fun _ => []

/-- A tiny concrete grid: a damaged Tomato, a Marigold and a pest share
cell `(0,0)`; a healthy Tomato sits everywhere else. -/
def gFeedW : Grid := fun q =>
  if q = (0, 0) then [Entity.tomato 30, Entity.marigold 100, Entity.thrip 2]
  else [Entity.tomato 100]

/-- A tiny concrete grid holding a single healthy Tomato at `(0,0)`. -/
def gYieldW : Grid := fun q => if q = (0, 0) then [Entity.tomato 100] else []

/-- A tiny concrete grid holding a Tomato and a pest at `(0,0)`. -/
def gCropW : Grid := fun q =>
  if q = (0, 0) then [Entity.tomato 100, Entity.thrip 3] else []

theorem feedEntity_eq (e : Entity) :
    feedEntity e = (match e with
      | Entity.tomato hp => Entity.tomato (max 0 (hp - 25))
      | e => e) := by
  cases e with
  | tomato hp =>
    simp only [feedEntity]
    congr 1
    split_ifs <;> omega
  | marigold hp => rfl
  | thrip a => rfl

theorem yield_foldl_eq (l : List Entity) (a b : ℤ) :
    l.foldl
      (fun acc e =>
        match e with
        | Entity.tomato hp => (acc.1 + 100, acc.2 + hp)
        | _ => acc)
      (a, b)
    = (a + 100 * (l.countP isTomatoE : ℤ), b + (l.map tomatoHealthOf).sum) := by
  induction l generalizing a b with
  | nil => simp
  | cons e t ih =>
    cases e <;>
      simp [List.countP_cons, ih, isTomatoE, tomatoHealthOf, Prod.mk.injEq] <;>
      push_cast <;> omega

theorem tomatoHealth_sum_all100 (l : List Entity)
    (h : ∀ e ∈ l, isTomatoE e = true → e = Entity.tomato 100) :
    (l.map tomatoHealthOf).sum = 100 * (l.countP isTomatoE : ℤ) := by
  induction l with
  | nil => simp
  | cons e t ih =>
    have ht := ih (fun x hx hx2 => h x (List.mem_cons_of_mem _ hx) hx2)
    cases he : isTomatoE e
    · have h0 : tomatoHealthOf e = 0 := by cases e <;> simp [isTomatoE] at he ⊢ <;> rfl
      simp [List.countP_cons, he, h0, ht]
    · have he2 := h e (List.mem_cons_self _ _) he
      subst he2
      simp only [List.map_cons, List.sum_cons, List.countP_cons, he, tomatoHealthOf, ht]
      push_cast
      ring

theorem cropKinds_append_thrip (l : List Entity) (a : ℕ) :
    cropKinds (l ++ [Entity.thrip a]) = cropKinds l := by
  simp [cropKinds, cropKindOf]

theorem cropKinds_placeEntity_thrip (g : Grid) (p q : ℕ × ℕ) (a : ℕ) :
    cropKinds ((placeEntity g p (Entity.thrip a)) q) = cropKinds (g q) := by
  unfold placeEntity updateCell
  rcases eq_or_ne q p with hqp | hqp
  · simp [hqp, cropKinds_append_thrip]
  · simp [hqp]

theorem cropKinds_eraseIdx (l : List Entity) (i a : ℕ)
    (hl : l[i]? = some (Entity.thrip a)) :
    cropKinds (l.eraseIdx i) = cropKinds l := by
  induction l generalizing i with
  | nil => simp at hl
  | cons e t ih =>
    cases i with
    | zero =>
      have he : e = Entity.thrip a := by simpa using hl
      subst he
      simp [cropKinds, cropKindOf, List.eraseIdx]
    | succ n =>
      have hl2 : t[n]? = some (Entity.thrip a) := by simpa using hl
      have hrec := ih n hl2
      simp only [cropKinds] at hrec
      cases hke : cropKindOf e <;>
        simp [List.eraseIdx_cons_succ, cropKinds, List.filterMap_cons, hke, hrec]

theorem cropKindOf_feedEntity (e : Entity) : cropKindOf (feedEntity e) = cropKindOf e := by
  cases e <;> rfl

theorem cropKinds_feed (g : Grid) (p q : ℕ × ℕ) :
    cropKinds ((feed g p) q) = cropKinds (g q) := by
  unfold feed updateCell
  rcases eq_or_ne q p with hqp | hqp
  · have hcomp : cropKindOf ∘ feedEntity = cropKindOf := funext cropKindOf_feedEntity
    simp [hqp, cropKinds, List.filterMap_map, hcomp]
  · simp [hqp]

theorem cropKinds_init_pests (g : Grid) (w h : ℕ) (prnd : ℕ × ℕ → ℚ) (q : ℕ × ℕ) :
    cropKinds ((init_pests g w h prnd) q) = cropKinds (g q) := by
  unfold init_pests
  generalize gridCells w h = ps
  induction ps generalizing g with
  | nil => rfl
  | cons p t ih =>
    simp only [List.foldl_cons]
    by_cases hsp : spawnTest w h p.1 p.2 (prnd p) = true
    · rw [if_pos hsp, ih (placeEntity g p (Entity.thrip 0)), cropKinds_placeEntity_thrip]
    · rw [if_neg hsp]
      exact ih g

theorem mem_neighborhoodCells (w h : ℕ) (p q : ℕ × ℕ) :
    q ∈ neighborhoodCells w h p ↔
      (¬(q.1 = p.1 ∧ q.2 = p.2) ∧ q.1 < w ∧ q.2 < h
       ∧ q.1 ≤ p.1 + 1 ∧ p.1 ≤ q.1 + 1 ∧ q.2 ≤ p.2 + 1 ∧ p.2 ≤ q.2 + 1) := by
  unfold neighborhoodCells
  rw [List.mem_filterMap]
  constructor
  · rintro ⟨d, hd, he⟩
    by_cases hc : 0 ≤ (p.1 : ℤ) + d.1 ∧ (p.1 : ℤ) + d.1 < (w : ℤ)
        ∧ 0 ≤ (p.2 : ℤ) + d.2 ∧ (p.2 : ℤ) + d.2 < (h : ℤ)
    · rw [if_pos hc] at he
      obtain ⟨hc1, hc2, hc3, hc4⟩ := hc
      have hq := Option.some.inj he
      have hq1 : ((p.1 : ℤ) + d.1).toNat = q.1 := congrArg Prod.fst hq
      have hq2 : ((p.2 : ℤ) + d.2).toNat = q.2 := congrArg Prod.snd hq
      simp only [mooreDeltas, List.mem_cons, List.not_mem_nil, or_false] at hd
      rcases hd with rfl | rfl | rfl | rfl | rfl | rfl | rfl | rfl <;>
        dsimp only at hq1 hq2 hc1 hc2 hc3 hc4 <;> omega
    · rw [if_neg hc] at he
      exact absurd he (by simp)
  · rintro ⟨hne, hq1, hq2, hc1, hc2, hc3, hc4⟩
    refine ⟨((q.1 : ℤ) - p.1, (q.2 : ℤ) - p.2), ?_, ?_⟩
    · simp only [mooreDeltas, List.mem_cons, List.not_mem_nil, or_false, Prod.mk.injEq]
      omega
    · rw [if_pos (by constructor <;> [omega; constructor <;> [omega; constructor <;> omega]])]
      simp only [Option.some.injEq, Prod.ext_iff]
      constructor <;> omega

theorem mem_marigoldCells (g : Grid) (w h : ℕ) (p q : ℕ × ℕ) :
    q ∈ marigoldCells g w h p ↔
      q ∈ neighborhoodCells w h p ∧ ∃ hm, Entity.marigold hm ∈ g q := by
  unfold marigoldCells
  rw [List.mem_flatMap]
  constructor
  · rintro ⟨cell, hcell, hq⟩
    rw [List.mem_filterMap] at hq
    obtain ⟨e, he, hsome⟩ := hq
    cases e with
    | tomato hp0 => exact absurd hsome (by simp)
    | marigold hm =>
      have : cell = q := Option.some.inj hsome
      subst this
      exact ⟨hcell, hm, he⟩
    | thrip a0 => exact absurd hsome (by simp)
  · rintro ⟨hnb, hm, hmem⟩
    exact ⟨q, hnb, List.mem_filterMap.mpr ⟨Entity.marigold hm, hmem, rfl⟩⟩

theorem getD_mod_mem (l : List (ℕ × ℕ)) (c : ℕ) (d : ℕ × ℕ) (hl : l ≠ []) :
    l.getD (c % l.length) d ∈ l := by
  have hlen : 0 < l.length := List.length_pos.mpr hl
  have hlt : c % l.length < l.length := Nat.mod_lt _ hlen
  rw [List.getD_eq_getElem l d hlt]
  exact List.getElem_mem hlt

theorem getD_mod_surj (l : List (ℕ × ℕ)) (d q : ℕ × ℕ) (hq : q ∈ l) :
    ∃ c, l.getD (c % l.length) d = q := by
  obtain ⟨i, hi, hEq⟩ := List.getElem_of_mem hq
  exact ⟨i, by rw [Nat.mod_eq_of_lt hi, List.getD_eq_getElem l d hi, hEq]⟩

theorem neighborhoodCells_ne_nil (w h : ℕ) (p : ℕ × ℕ)
    (hp1 : p.1 < w) (hp2 : p.2 < h) (hw : 2 ≤ w) :
    neighborhoodCells w h p ≠ [] := by
  by_cases hc : p.1 + 1 < w
  · have hmem : ((p.1 + 1, p.2) : ℕ × ℕ) ∈ neighborhoodCells w h p := by
      rw [mem_neighborhoodCells]
      dsimp only
      omega
    exact List.ne_nil_of_mem hmem
  · have hmem : ((p.1 - 1, p.2) : ℕ × ℕ) ∈ neighborhoodCells w h p := by
      rw [mem_neighborhoodCells]
      dsimp only
      omega
    exact List.ne_nil_of_mem hmem

theorem outbreakUpdate_two (s : ℕ) (w1 w2 : Weather) :
    (outbreakUpdate (outbreakUpdate s w1).1 w2).2 = (optimalDay w1 && optimalDay w2) := by
  cases h1 : optimalDay w1 <;> cases h2 : optimalDay w2 <;>
    simp [outbreakUpdate, h1, h2]

/- ----------------------------------------------------------------
Claim theorems.
---------------------------------------------------------------- -/

/-- C1: the outbreak flag is true exactly when the streak is at least 2;
a tick is optimal iff its record has temperature in `[25, 32]` and
humidity strictly below 65; after any two consecutive ticks the flag is
set iff both ticks were optimal (so, for every run, two consecutive
optimal ticks are necessary and sufficient to set the flag), and any
single non-optimal tick resets the streak to 0 and clears the flag
within that same tick. -/
theorem outbreak_flag_spec (s : ℕ) (w w1 w2 : Weather) (ws : List Weather) :
    ((outbreakUpdate s w).2 = true ↔ 2 ≤ (outbreakUpdate s w).1)
    ∧ (optimalDay w = true ↔ 25 ≤ w.temp ∧ w.temp ≤ 32 ∧ w.humidity < 65)
    ∧ (outbreakUpdate (outbreakUpdate s w1).1 w2).2 = (optimalDay w1 && optimalDay w2)
    ∧ (optimalDay w = false → (outbreakUpdate s w).1 = 0 ∧ (outbreakUpdate s w).2 = false)
    ∧ runFlag (ws ++ [w1, w2]) = (optimalDay w1 && optimalDay w2) := by
  refine ⟨by simp [outbreakUpdate], by simp [optimalDay], outbreakUpdate_two s w1 w2,
    fun hw => by simp [outbreakUpdate, hw], ?_⟩
  have hfold : runStreak (ws ++ [w1, w2])
      = (outbreakUpdate (outbreakUpdate (runStreak ws) w1).1 w2).1 := by
    simp [runStreak, List.foldl_append]
  have hflag : runFlag (ws ++ [w1, w2])
      = (outbreakUpdate (outbreakUpdate (runStreak ws) w1).1 w2).2 := by
    simp [runFlag, hfold, outbreakUpdate]
  rw [hflag, outbreakUpdate_two]

/-- Witness for C1 at a concrete run: an optimal day (29 °C, 55 %)
followed by another optimal day sets the flag; a non-optimal day
(20 °C, 80 %) resets it. -/
theorem outbreak_flag_spec_witness :
    ((outbreakUpdate 5 ⟨20, 80, false⟩).2 = true ↔ 2 ≤ (outbreakUpdate 5 ⟨20, 80, false⟩).1)
    ∧ (optimalDay ⟨20, 80, false⟩ = true ↔
        25 ≤ (20 : ℚ) ∧ (20 : ℚ) ≤ 32 ∧ (80 : ℚ) < 65)
    ∧ (outbreakUpdate (outbreakUpdate 5 ⟨29, 55, false⟩).1 ⟨29, 55, false⟩).2
        = (optimalDay ⟨29, 55, false⟩ && optimalDay ⟨29, 55, false⟩)
    ∧ (optimalDay ⟨20, 80, false⟩ = false →
        (outbreakUpdate 5 ⟨20, 80, false⟩).1 = 0
        ∧ (outbreakUpdate 5 ⟨20, 80, false⟩).2 = false)
    ∧ runFlag ([⟨20, 80, false⟩] ++ [⟨29, 55, false⟩, ⟨29, 55, false⟩])
        = (optimalDay ⟨29, 55, false⟩ && optimalDay ⟨29, 55, false⟩) :=
  outbreak_flag_spec 5 ⟨20, 80, false⟩ ⟨29, 55, false⟩ ⟨29, 55, false⟩ [⟨20, 80, false⟩]

/-- C2: the mortality draw uses probability 0.05, raised to 0.45 when
humidity is strictly above 60 or rain is flagged; a pest whose mortality
draw fires is removed and no reproduction happens that tick; otherwise
the reproduction probability is 0.02, raised to 0.15 when temperature is
in `[25, 30]` and humidity is strictly below 60, plus a flat `+0.20`
while the outbreak flag is set, and a firing draw appends exactly one new
pest with age 0 at the parent's cell. -/
theorem lifecycle_spec (w : Weather) (ob : Bool) (d1 d2 : ℚ)
    (g : Grid) (p : ℕ × ℕ) (i : ℕ) :
    death_prob w = (if 60 < w.humidity ∨ w.rain = true then (45 : ℚ) / 100 else 5 / 100)
    ∧ repro_prob w ob
        = (if 25 ≤ w.temp ∧ w.temp ≤ 30 ∧ w.humidity < 60 then (15 : ℚ) / 100 else 2 / 100)
          + (if ob = true then (20 : ℚ) / 100 else 0)
    ∧ (d1 < death_prob w →
        biological_lifecycle w ob d1 d2 g p i = removeEntityAt g p i)
    ∧ (¬ d1 < death_prob w → d2 < repro_prob w ob →
        biological_lifecycle w ob d1 d2 g p i = placeEntity g p (Entity.thrip 0)
        ∧ ((placeEntity g p (Entity.thrip 0)) p).length = (g p).length + 1
        ∧ ((placeEntity g p (Entity.thrip 0)) p).getLast? = some (Entity.thrip 0))
    ∧ (¬ d1 < death_prob w → ¬ d2 < repro_prob w ob →
        biological_lifecycle w ob d1 d2 g p i = g) := by
  refine ⟨rfl, ?_, ?_, ?_, ?_⟩
  · simp only [repro_prob]
    cases ob <;> split_ifs <;> norm_num
  · intro h1
    simp [biological_lifecycle, h1]
  · intro h1 h2
    refine ⟨by simp [biological_lifecycle, h1, h2], ?_, ?_⟩
    · simp [placeEntity, updateCell]
    · simp [placeEntity, updateCell]
  · intro h1 h2
    simp [biological_lifecycle, h1, h2]

/-- Witness for C2: at 28 °C / 70 % humidity the mortality probability is
0.45; a surviving draw of 0.5 followed by a reproduction draw of 0.1
during an outbreak (probability 0.02 + 0.20) creates one pest of age 0. -/
theorem lifecycle_spec_witness :
    (¬ (1 : ℚ) / 2 < death_prob ⟨28, 70, false⟩)
    ∧ ((1 : ℚ) / 10 < repro_prob ⟨28, 70, false⟩ true)
    ∧ biological_lifecycle ⟨28, 70, false⟩ true (1 / 2) (1 / 10) emptyGrid (0, 0) 0
        = placeEntity emptyGrid (0, 0) (Entity.thrip 0) := by
  have hd : ¬ (1 : ℚ) / 2 < death_prob ⟨28, 70, false⟩ := by norm_num [death_prob]
  have hr : (1 : ℚ) / 10 < repro_prob ⟨28, 70, false⟩ true := by norm_num [repro_prob]
  exact ⟨hd, hr,
    ((lifecycle_spec ⟨28, 70, false⟩ true (1 / 2) (1 / 10) emptyGrid (0, 0) 0).2.2.2.1
      hd hr).1⟩

/-- C3: the yield-loss percentage, computed by scanning every grid cell,
equals `(potential - actual) / potential * 100` with `potential` 100 per
Tomato entity and `actual` the sum of Tomato health values, and equals 0
when there is no Tomato; in particular it is 0 when every Tomato has
health 100. -/
theorem yield_loss_spec (g : Grid) (w h : ℕ) :
    (calculate_yield_loss g w h
      = if (allEntities g w h).countP isTomatoE = 0 then 0
        else ((100 * ((allEntities g w h).countP isTomatoE : ℚ)
                - (((allEntities g w h).map tomatoHealthOf).sum : ℚ))
              / (100 * ((allEntities g w h).countP isTomatoE : ℚ))) * 100)
    ∧ ((∀ e ∈ allEntities g w h, isTomatoE e = true → e = Entity.tomato 100) →
        calculate_yield_loss g w h = 0) := by
  have hmain : calculate_yield_loss g w h
      = if (allEntities g w h).countP isTomatoE = 0 then 0
        else ((100 * ((allEntities g w h).countP isTomatoE : ℚ)
                - (((allEntities g w h).map tomatoHealthOf).sum : ℚ))
              / (100 * ((allEntities g w h).countP isTomatoE : ℚ))) * 100 := by
    simp only [calculate_yield_loss, yield_foldl_eq, zero_add]
    rcases Nat.eq_zero_or_pos ((allEntities g w h).countP isTomatoE) with hc | hc
    · simp [hc]
    · have h1 : (0 : ℤ) < 100 * ((allEntities g w h).countP isTomatoE : ℤ) := by
        positivity
      rw [if_pos h1, if_neg (by omega)]
      push_cast
      ring_nf
  refine ⟨hmain, fun hall => ?_⟩
  rw [hmain]
  rcases Nat.eq_zero_or_pos ((allEntities g w h).countP isTomatoE) with hc | hc
  · simp [hc]
  · rw [if_neg (by omega), tomatoHealth_sum_all100 _ hall]
    push_cast
    ring_nf

/-- Witness for C3: a 1×1 grid holding one healthy Tomato has yield loss
0 %. -/
theorem yield_loss_spec_witness :
    (∀ e ∈ allEntities gYieldW 1 1, isTomatoE e = true → e = Entity.tomato 100)
    ∧ calculate_yield_loss gYieldW 1 1 = 0 := by
  have hall : ∀ e ∈ allEntities gYieldW 1 1, isTomatoE e = true → e = Entity.tomato 100 := by
    decide
  exact ⟨hall, (yield_loss_spec gYieldW 1 1).2 hall⟩

/-- C4: feeding at cell `p` reduces the health of every Tomato in that
cell by exactly 25, floored at 0, leaves Marigolds and pests in the cell
untouched, and leaves every other cell of the grid unchanged. -/
theorem feed_spec (g : Grid) (p : ℕ × ℕ) :
    (∀ i : ℕ, ((feed g p) p)[i]?
      = ((g p)[i]?).map (fun e =>
          match e with
          | Entity.tomato hp => Entity.tomato (max 0 (hp - 25))
          | e => e))
    ∧ (∀ q, q ≠ p → (feed g p) q = g q) := by
  constructor
  · intro i
    have hcell : (feed g p) p = (g p).map feedEntity := by simp [feed, updateCell]
    rw [hcell, List.getElem?_map]
    cases hg : (g p)[i]? with
    | none => rfl
    | some e => exact congrArg some (feedEntity_eq e)
  · intro q hq
    simp [feed, updateCell, hq]

/-- Counterexample to C5 as stated: at trap ratio 0.15 the code uses the
truncated period `int(1/0.15) = 6` rather than `round(1/0.15) = 7`, so
row 6 is planted entirely with Marigold although 6 is not a multiple of
7; and at ratio 0 the layout is not all-Tomato — row 0 is entirely
Marigold, because `0 % 100 == 0`. -/
theorem intercropping_round_cex :
    intercropFreq (3 / 20) = 6
    ∧ round ((1 : ℚ) / (3 / 20)) = 7
    ∧ ¬ 6 % 7 = 0
    ∧ (∃ g, generate_layout "intercropping" (3 / 20) 40 40 = Except.ok g
        ∧ g (0, 6) = [Entity.marigold 100])
    ∧ (∃ g0, generate_layout "intercropping" 0 40 40 = Except.ok g0
        ∧ g0 (0, 0) = [Entity.marigold 100]) := by
  have hfreq : intercropFreq (3 / 20) = 6 := by
    norm_num [intercropFreq]
    rfl
  have hfreq0 : intercropFreq 0 = 100 := by norm_num [intercropFreq]
  refine ⟨hfreq, by norm_num [round_eq], by decide, ?_, ?_⟩
  · have hcond : ¬("intercropping" = "intercropping"
        ∧ intercropFreq (3 / 20) = 0 ∧ 0 < 40 ∧ 0 < 40) := by
      rintro ⟨-, hf, -⟩
      omega
    refine ⟨_, by rw [generate_layout, if_neg hcond], ?_⟩
    simp [layoutIsTrap, hfreq]
  · have hcond : ¬("intercropping" = "intercropping"
        ∧ intercropFreq 0 = 0 ∧ 0 < 40 ∧ 0 < 40) := by
      rintro ⟨-, hf, -⟩
      omega
    refine ⟨_, by rw [generate_layout, if_neg hcond], ?_⟩
    simp [layoutIsTrap, hfreq0]

/-- C5 as amended: under the intercropping policy with trap ratio
`r ∈ (0, 1]` the row period is `f = ⌊1/r⌋` (Python `int` truncation, not
rounding), it is at least 1, and exactly the rows whose index is a
multiple of `f` are entirely Marigold while all other rows are entirely
Tomato; for `r = 0` the period defaults to the constant 100, so within
the 40-row grid row 0 is entirely Marigold and every other row is
entirely Tomato. -/
theorem intercropping_layout_spec (r : ℚ) (h0 : 0 < r) (h1 : r ≤ 1) (x y : ℕ)
    (hx : x < 40) (hy : y < 40) :
    intercropFreq r = (⌊1 / r⌋).toNat
    ∧ 1 ≤ intercropFreq r
    ∧ (∃ g, generate_layout "intercropping" r 40 40 = Except.ok g
        ∧ g (x, y) = [if y % intercropFreq r = 0 then Entity.marigold 100
                      else Entity.tomato 100])
    ∧ (∃ g0, generate_layout "intercropping" 0 40 40 = Except.ok g0
        ∧ g0 (x, y) = [if y = 0 then Entity.marigold 100
                       else Entity.tomato 100]) := by
  have hfr : intercropFreq r = (⌊1 / r⌋).toNat := by simp [intercropFreq, h0]
  have hone : (1 : ℚ) ≤ 1 / r := (one_le_div h0).mpr h1
  have hfloor : (1 : ℤ) ≤ ⌊1 / r⌋ := by
    have := Int.le_floor.mpr (by exact_mod_cast hone : ((1 : ℤ) : ℚ) ≤ 1 / r)
    exact this
  have hge1 : 1 ≤ intercropFreq r := by
    rw [hfr]
    omega
  have hfreq0 : intercropFreq 0 = 100 := by norm_num [intercropFreq]
  refine ⟨hfr, hge1, ?_, ?_⟩
  · have hcond : ¬("intercropping" = "intercropping"
        ∧ intercropFreq r = 0 ∧ 0 < 40 ∧ 0 < 40) := by
      rintro ⟨-, hf, -⟩
      omega
    refine ⟨_, by rw [generate_layout, if_neg hcond], ?_⟩
    have hxy : (x, y).1 < 40 ∧ (x, y).2 < 40 := ⟨hx, hy⟩
    rw [if_pos hxy]
    rcases Nat.decEq (y % intercropFreq r) 0 with hmod | hmod
    · simp [layoutIsTrap, hmod]
    · simp [layoutIsTrap, hmod]
  · have hcond : ¬("intercropping" = "intercropping"
        ∧ intercropFreq 0 = 0 ∧ 0 < 40 ∧ 0 < 40) := by
      rintro ⟨-, hf, -⟩
      omega
    refine ⟨_, by rw [generate_layout, if_neg hcond], ?_⟩
    have hxy : (x, y).1 < 40 ∧ (x, y).2 < 40 := ⟨hx, hy⟩
    rw [if_pos hxy]
    have hmod : y % 100 = y := Nat.mod_eq_of_lt (by omega)
    rcases Nat.decEq y 0 with hy0 | hy0
    · simp [layoutIsTrap, hfreq0, hmod, hy0]
    · simp [layoutIsTrap, hfreq0, hmod, hy0]

/-- Witness for C5 (amended) at ratio 0.2: the period is
`⌊1/0.2⌋ = 5`, so row 0 is Marigold while cell `(0, 3)` is Tomato. -/
theorem intercropping_layout_spec_witness :
    (0 : ℚ) < 1 / 5 ∧ (1 / 5 : ℚ) ≤ 1 ∧ (0 < 40 ∧ 3 < 40)
    ∧ (intercropFreq (1 / 5) = (⌊1 / (1 / 5 : ℚ)⌋).toNat
      ∧ 1 ≤ intercropFreq (1 / 5)
      ∧ (∃ g, generate_layout "intercropping" (1 / 5) 40 40 = Except.ok g
          ∧ g (0, 3) = [if 3 % intercropFreq (1 / 5) = 0 then Entity.marigold 100
                        else Entity.tomato 100])
      ∧ (∃ g0, generate_layout "intercropping" 0 40 40 = Except.ok g0
          ∧ g0 (0, 3) = [if 3 = 0 then Entity.marigold 100
                         else Entity.tomato 100])) :=
  ⟨by norm_num, by norm_num, ⟨by decide, by decide⟩,
    intercropping_layout_spec (1 / 5) (by norm_num) (by norm_num) 0 3
      (by decide) (by decide)⟩

/-- Counterexample to C6 as stated: the "Force Outbreak" configuration
builds only 50 weather records, below the 100-record minimum, and in the
other path a provider record outside the clamp bounds (50 °C / 99 %) is
kept unclamped in the final timeline. -/
theorem weather_contract_cex :
    (setupWeather "Force Outbreak" [] (fun _ => (0, 0, 0))).length = 50
    ∧ ¬ 100 ≤ (setupWeather "Force Outbreak" [] (fun _ => (0, 0, 0))).length
    ∧ Weather.mk 50 99 false
        ∈ setupWeather "Real Data" [Weather.mk 50 99 false] (fun _ => (0, 0, 1))
    ∧ ¬ weatherInBounds (Weather.mk 50 99 false) := by
  have hlen : (setupWeather "Force Outbreak" [] (fun _ => (0, 0, 0))).length = 50 := by
    simp [setupWeather]
  refine ⟨hlen, ?_, ?_, by norm_num [weatherInBounds]⟩
  · rw [hlen]
    decide
  · simp [setupWeather, baseHist, extend_weather_data]

/-- C6 as amended: in every configuration other than "Force Outbreak"
the weather timeline has at least 100 records and every record appended
by the extension rule has temperature in `[15, 38]` and humidity in
`[20, 95]`; the whole timeline satisfies those bounds whenever the base
records (provider data, or the 25 °C / 50 % fallback) do, since base
records are kept unclamped. The "Force Outbreak" configuration instead
yields exactly 50 records. -/
theorem weather_contract (scen : String) (hs : ¬ scen = "Force Outbreak")
    (api : List Weather) (rnd : ℕ → ℚ × ℚ × ℚ) :
    100 ≤ (setupWeather scen api rnd).length
    ∧ (∀ w ∈ (setupWeather scen api rnd).drop (baseHist api).length, weatherInBounds w)
    ∧ ((∀ w ∈ baseHist api, weatherInBounds w) →
        ∀ w ∈ setupWeather scen api rnd, weatherInBounds w)
    ∧ (setupWeather "Force Outbreak" api rnd).length = 50 := by
  have hsetup : setupWeather scen api rnd
      = baseHist api
        ++ extendLoop (100 - (baseHist api).length)
            (match (baseHist api).getLast? with | none => 28 | some w0 => w0.temp)
            (match (baseHist api).getLast? with | none => 50 | some w0 => w0.humidity)
            rnd 0 := by
    simp [setupWeather, hs, extend_weather_data]
  refine ⟨?_, ?_, ?_, by simp [setupWeather]⟩
  · rw [hsetup]
    simp [extendLoop_length]
    omega
  · intro w hw
    rw [hsetup, List.drop_left] at hw
    exact extendLoop_inBounds _ _ _ _ _ w hw
  · intro hbase w hw
    rw [hsetup] at hw
    rcases List.mem_append.mp hw with hw | hw
    · exact hbase w hw
    · exact extendLoop_inBounds _ _ _ _ _ w hw

/-- Witness for C6 (amended): the "Real Data" path with an empty
provider result falls back to the in-bounds 25 °C / 50 % record and
extends it to 100 in-bounds records. -/
theorem weather_contract_witness :
    ¬ "Real Data" = "Force Outbreak"
    ∧ (100 ≤ (setupWeather "Real Data" [] (fun _ => (0, 0, 0))).length
      ∧ (∀ w ∈ (setupWeather "Real Data" [] (fun _ => (0, 0, 0))).drop
            (baseHist []).length, weatherInBounds w)
      ∧ ((∀ w ∈ baseHist [], weatherInBounds w) →
          ∀ w ∈ setupWeather "Real Data" [] (fun _ => (0, 0, 0)), weatherInBounds w)
      ∧ (setupWeather "Force Outbreak" [] (fun _ => (0, 0, 0))).length = 50) :=
  ⟨by decide, weather_contract "Real Data" (by decide) [] (fun _ => (0, 0, 0))⟩

/-- Witness for C4: feeding at `(0,0)` takes the Tomato there from
health 30 to health 5, keeps the Marigold and the pest, and leaves the
Tomato at `(1,1)` untouched. -/
theorem feed_spec_witness :
    ((feed gFeedW (0, 0)) (0, 0))[0]?
      = ((gFeedW (0, 0))[0]?).map (fun e =>
          match e with
          | Entity.tomato hp => Entity.tomato (max 0 (hp - 25))
          | e => e)
    ∧ (((1, 1) : ℕ × ℕ) ≠ (0, 0))
    ∧ (feed gFeedW (0, 0)) (1, 1) = gFeedW (1, 1) :=
  ⟨(feed_spec gFeedW (0, 0)).1 0, by decide,
    (feed_spec gFeedW (0, 0)).2 (1, 1) (by decide)⟩

/-- C8: once layout generation completes, every in-range coordinate of
the 40×40 grid holds exactly one crop entity, and the per-cell crop
occupancy (kind and position) is preserved by every mutating operation
of a run — feeding (which only changes health), pest placement, pest
removal and pest seeding — so crop entities never move, are never
removed, and no cell is ever unpopulated or double-populated. -/
theorem crop_occupancy_invariant (layout : String) (r : ℚ) (g : Grid)
    (p q : ℕ × ℕ) (i a : ℕ) (prnd : ℕ × ℕ → ℚ) :
    (∀ g2, generate_layout layout r 40 40 = Except.ok g2 →
      ∀ x y, x < 40 → y < 40 → (cropKinds (g2 (x, y))).length = 1)
    ∧ cropKinds ((feed g p) q) = cropKinds (g q)
    ∧ cropKinds ((placeEntity g p (Entity.thrip a)) q) = cropKinds (g q)
    ∧ ((g p)[i]? = some (Entity.thrip a) →
        cropKinds ((removeEntityAt g p i) q) = cropKinds (g q))
    ∧ cropKinds ((init_pests g 40 40 prnd) q) = cropKinds (g q) := by
  refine ⟨?_, cropKinds_feed g p q, cropKinds_placeEntity_thrip g p q a, ?_,
    cropKinds_init_pests g 40 40 prnd q⟩
  · intro g2 hok x y hx hy
    unfold generate_layout at hok
    split at hok
    · exact absurd hok (by simp)
    · have hg2 : g2 = fun p2 =>
          if p2.1 < 40 ∧ p2.2 < 40 then
            [if layoutIsTrap layout r 40 40 p2.1 p2.2 then Entity.marigold 100
             else Entity.tomato 100]
          else [] :=
        (Except.ok.inj hok).symm
      subst hg2
      dsimp only
      rw [if_pos ⟨hx, hy⟩]
      cases layoutIsTrap layout r 40 40 x y <;> simp [cropKinds, cropKindOf]
  · intro hl
    unfold removeEntityAt updateCell
    rcases eq_or_ne q p with hqp | hqp
    · subst hqp
      rw [if_pos rfl]
      exact cropKinds_eraseIdx _ i a hl
    · simp [hqp]

/-- Witness for C8 on a concrete grid: removing the pest stored behind
the Tomato of cell `(0,0)` leaves the cell's crop occupancy intact. -/
theorem crop_occupancy_invariant_witness :
    (gCropW (0, 0))[1]? = some (Entity.thrip 3)
    ∧ ((∀ g2, generate_layout "perimeter" (1 / 5) 40 40 = Except.ok g2 →
        ∀ x y, x < 40 → y < 40 → (cropKinds (g2 (x, y))).length = 1)
      ∧ cropKinds ((feed gCropW (0, 0)) (0, 0)) = cropKinds (gCropW (0, 0))
      ∧ cropKinds ((placeEntity gCropW (0, 0) (Entity.thrip 3)) (0, 0))
          = cropKinds (gCropW (0, 0))
      ∧ ((gCropW (0, 0))[1]? = some (Entity.thrip 3) →
          cropKinds ((removeEntityAt gCropW (0, 0) 1) (0, 0)) = cropKinds (gCropW (0, 0)))
      ∧ cropKinds ((init_pests gCropW 40 40 (fun _ => 1)) (0, 0))
          = cropKinds (gCropW (0, 0))) :=
  ⟨by decide,
    crop_occupancy_invariant "perimeter" (1 / 5) gCropW (0, 0) (0, 0) 1 3 (fun _ => 1)⟩

/-- C9: the movement rule inspects the 8-connected Moore neighbourhood
clipped to grid bounds with no wraparound (so edge and corner cells have
fewer candidates), never including the current cell; the Marigold
candidates are exactly the neighbourhood cells holding a Marigold
entity; when such candidates exist and the attraction draw is below 0.8
the pest moves to one of them, each reachable by some choice index
(uniform support); otherwise — including when trap cells exist but the
draw is at least 0.8 — it moves to some neighbourhood cell, each
reachable by some choice index. -/
theorem move_spec (g : Grid) (w h : ℕ) (p : ℕ × ℕ) (r : ℚ) (c : ℕ)
    (hp1 : p.1 < w) (hp2 : p.2 < h) (hw : 2 ≤ w) :
    (∀ q, q ∈ neighborhoodCells w h p ↔
      (¬(q.1 = p.1 ∧ q.2 = p.2) ∧ q.1 < w ∧ q.2 < h
       ∧ q.1 ≤ p.1 + 1 ∧ p.1 ≤ q.1 + 1 ∧ q.2 ≤ p.2 + 1 ∧ p.2 ≤ q.2 + 1))
    ∧ (∀ q, q ∈ marigoldCells g w h p ↔
        q ∈ neighborhoodCells w h p ∧ ∃ hm, Entity.marigold hm ∈ g q)
    ∧ (marigoldCells g w h p ≠ [] → r < 8 / 10 →
        move g w h p r c ∈ marigoldCells g w h p
        ∧ ∀ q ∈ marigoldCells g w h p, ∃ c2, move g w h p r c2 = q)
    ∧ ((marigoldCells g w h p = [] ∨ ¬ r < 8 / 10) →
        move g w h p r c ∈ neighborhoodCells w h p
        ∧ ∀ q ∈ neighborhoodCells w h p, ∃ c2, move g w h p r c2 = q) := by
  refine ⟨fun q => mem_neighborhoodCells w h p q,
    fun q => mem_marigoldCells g w h p q, ?_, ?_⟩
  · intro hmc hr
    have hval : ∀ c2, move g w h p r c2
        = (marigoldCells g w h p).getD (c2 % (marigoldCells g w h p).length) p :=
      fun c2 => by rw [move, if_pos ⟨hmc, hr⟩]
    constructor
    · rw [hval c]
      exact getD_mod_mem _ c p hmc
    · intro q hq
      obtain ⟨c2, hc2⟩ := getD_mod_surj (marigoldCells g w h p) p q hq
      exact ⟨c2, by rw [hval c2, hc2]⟩
  · intro hcase
    have hneg : ¬(marigoldCells g w h p ≠ [] ∧ r < 8 / 10) := by
      rcases hcase with hnil | hr
      · exact fun hand => hand.1 hnil
      · exact fun hand => hr hand.2
    have hval : ∀ c2, move g w h p r c2
        = (neighborhoodCells w h p).getD (c2 % (neighborhoodCells w h p).length) p :=
      fun c2 => by rw [move, if_neg hneg]
    have hnil : neighborhoodCells w h p ≠ [] := neighborhoodCells_ne_nil w h p hp1 hp2 hw
    constructor
    · rw [hval c]
      exact getD_mod_mem _ c p hnil
    · intro q hq
      obtain ⟨c2, hc2⟩ := getD_mod_surj (neighborhoodCells w h p) p q hq
      exact ⟨c2, by rw [hval c2, hc2]⟩

/-- Witness for C9 on an empty 2×2 grid from the corner `(0,0)`: no
Marigold candidates exist, so the pest moves to one of the three
clipped neighbourhood cells. -/
theorem move_spec_witness :
    ((0, 0) : ℕ × ℕ).1 < 2 ∧ ((0, 0) : ℕ × ℕ).2 < 2 ∧ 2 ≤ 2
    ∧ ((∀ q, q ∈ neighborhoodCells 2 2 (0, 0) ↔
        (¬(q.1 = ((0, 0) : ℕ × ℕ).1 ∧ q.2 = ((0, 0) : ℕ × ℕ).2) ∧ q.1 < 2 ∧ q.2 < 2
         ∧ q.1 ≤ ((0, 0) : ℕ × ℕ).1 + 1 ∧ ((0, 0) : ℕ × ℕ).1 ≤ q.1 + 1
         ∧ q.2 ≤ ((0, 0) : ℕ × ℕ).2 + 1 ∧ ((0, 0) : ℕ × ℕ).2 ≤ q.2 + 1))
      ∧ (∀ q, q ∈ marigoldCells emptyGrid 2 2 (0, 0) ↔
          q ∈ neighborhoodCells 2 2 (0, 0) ∧ ∃ hm, Entity.marigold hm ∈ emptyGrid q)
      ∧ (marigoldCells emptyGrid 2 2 (0, 0) ≠ [] → (0 : ℚ) < 8 / 10 →
          move emptyGrid 2 2 (0, 0) 0 0 ∈ marigoldCells emptyGrid 2 2 (0, 0)
          ∧ ∀ q ∈ marigoldCells emptyGrid 2 2 (0, 0),
              ∃ c2, move emptyGrid 2 2 (0, 0) 0 c2 = q)
      ∧ ((marigoldCells emptyGrid 2 2 (0, 0) = [] ∨ ¬ (0 : ℚ) < 8 / 10) →
          move emptyGrid 2 2 (0, 0) 0 0 ∈ neighborhoodCells 2 2 (0, 0)
          ∧ ∀ q ∈ neighborhoodCells 2 2 (0, 0),
              ∃ c2, move emptyGrid 2 2 (0, 0) 0 c2 = q)) :=
  ⟨by decide, by decide, by decide,
    move_spec emptyGrid 2 2 (0, 0) 0 0 (by decide) (by decide) (by decide)⟩

/-- C7 (evidence for the code bug): `__init__` performs no configuration
validation. A trap ratio of 0 — outside `(0, 1]` — is silently accepted:
initialization succeeds and builds the period-100 layout. A trap ratio
of 2 makes initialization fail, but with an incidental
`ZeroDivisionError` from `y % 0`, not a descriptive configuration
error. (Grid dimensions are hard-wired to 40×40 and cannot be
configured, so non-positive dimensions cannot even reach validation.) -/
theorem init_no_validation :
    (TomatoModel.init (Config.mk 50 0 "intercropping" 0 0 "Force Outbreak")
      [] rngW prndW).isOk = true
    ∧ TomatoModel.init (Config.mk 50 2 "intercropping" 0 0 "Force Outbreak")
      [] rngW prndW = Except.error PyErr.zeroDivision := by
  have hfreq0 : intercropFreq 0 = 100 := by norm_num [intercropFreq]
  have hfreq2 : intercropFreq 2 = 0 := by
    norm_num [intercropFreq]
  constructor
  · have hcond : ¬("intercropping" = "intercropping"
        ∧ intercropFreq 0 = 0 ∧ 0 < 40 ∧ 0 < 40) := by
      rintro ⟨-, hf, -⟩
      omega
    have hlay : generate_layout "intercropping" (0 : ℚ) 40 40
        = Except.ok (fun p =>
            if p.1 < 40 ∧ p.2 < 40 then
              [if layoutIsTrap "intercropping" 0 40 40 p.1 p.2 then Entity.marigold 100
               else Entity.tomato 100]
            else []) := by
      rw [generate_layout, if_neg hcond]
    simp only [TomatoModel.init, hlay]
    rfl
  · have hcond : ("intercropping" = "intercropping"
        ∧ intercropFreq 2 = 0 ∧ 0 < 40 ∧ 0 < 40) :=
      ⟨rfl, hfreq2, by omega, by omega⟩
    have hlay : generate_layout "intercropping" (2 : ℚ) 40 40
        = Except.error PyErr.zeroDivision := by
      rw [generate_layout, if_pos hcond]
    simp only [TomatoModel.init, hlay]

/-- C10: the grid is always exactly 40×40, and the farm-size-in-acres
argument has no effect on initialization: with the same provider data
and the same random draws, changing only the farm size yields the
identical engine state. -/
theorem grid_fixed_spec (cfg : Config) (a : ℚ) (api : List Weather)
    (wrnd : ℕ → ℚ × ℚ × ℚ) (prnd : ℕ × ℕ → ℚ) (st : ModelState)
    (hok : TomatoModel.init cfg api wrnd prnd = Except.ok st) :
    st.width = 40 ∧ st.height = 40
    ∧ TomatoModel.init (setFarm cfg a) api wrnd prnd = Except.ok st := by
  have hsame : TomatoModel.init (setFarm cfg a) api wrnd prnd
      = TomatoModel.init cfg api wrnd prnd := by
    cases cfg
    rfl
  have hwh : st.width = 40 ∧ st.height = 40 := by
    unfold TomatoModel.init at hok
    cases hgen : generate_layout cfg.layout cfg.trap_frac 40 40 with
    | error e =>
        rw [hgen] at hok
        exact absurd hok (by simp)
    | ok g0 =>
        rw [hgen] at hok
        have hst := (Except.ok.inj hok).symm
        rw [hst]
        exact ⟨rfl, rfl⟩
  exact ⟨hwh.1, hwh.2, by rw [hsame, hok]⟩

/-- Witness for C10: a concrete engine built with farm size 50 equals,
field for field, the engine built with farm size 999. -/
theorem grid_fixed_spec_witness :
    TomatoModel.init cfgW [] rngW prndW = Except.ok stW
    ∧ (stW.width = 40 ∧ stW.height = 40
      ∧ TomatoModel.init (setFarm cfgW 999) [] rngW prndW = Except.ok stW) :=
  ⟨rfl, grid_fixed_spec cfgW 999 [] rngW prndW stW rfl⟩

end IPM
